import Mathlib

/-!
Verification development for the transmission RPC client package
(src/sorting.go and src/transmission.go).

Shallow embedding notes:
* Go `int`, `int64` are modelled as `Int`; `uint64` as `Nat`; the
  float64 fields UploadRatio and PercentDone as `ℚ`; Go strings as `String`
  (Go string comparison is bytewise lexicographic on UTF-8, which agrees
  with code-point lexicographic order used by Lean).
* Field and function names follow the source; names that would collide
  with local lexical conventions carry a trailing prime
  (for example the Go field `UploadRatio` is `UploadRatio'` here).
* The in-place slice sorts are modelled as pure functions on lists.
  `sort.Sort` of the Go standard library (the introsort used by the
  `sort` package in the era of this repository: quicksort with a
  median-of-three or ninther pivot, a shellsort gap-6 pass plus
  insertion sort for segments of at most 12 elements, and a heapsort
  fallback at depth limit) is translated function by function below.
  Loops are encoded with an explicit fuel argument so that everything
  is structural recursion; the fuel chosen at each call site dominates
  the loop bounds, and every mutation goes through `aswap`, so the
  permutation lemmas hold for every fuel.
* The transport collaborator (`ApiClient.Post`) is an opaque environment
  `Env`: a function from the marshalled request body to either a
  transport failure, bytes that do not unmarshal (a decode failure), or
  bytes that unmarshal to a reply `Command`.  JSON marshalling of
  requests is modelled structurally (`Json` values) with the
  `encoding/json` "omitempty" rules applied per field exactly as tagged
  in the source.
-/

/-- Go struct tracker (src/sorting.go). -/
structure tracker where
  Announce : String
  Id : Int
  Scrape : String
  Tire : Int
deriving DecidableEq

/-- Go struct TorrentAdded (src/sorting.go). -/
structure TorrentAdded where
  HashString : String
  ID : Int
  Name : String
deriving DecidableEq

/-- Go struct cumulativeStats (src/sorting.go): DownloadedBytes and UploadedBytes are uint64. -/
structure cumulativeStats where
  DownloadedBytes : Nat
  FilesAdded : Int
  SecondsActive : Int
  SessionCount : Int
  UploadedBytes : Nat
deriving DecidableEq

/-- Go struct currentStats (src/sorting.go). -/
structure currentStats where
  DownloadedBytes : Nat
  FilesAdded : Int
  SecondsActive : Int
  SessionCount : Int
  UploadedBytes : Nat
deriving DecidableEq

/-- Go struct Torrent (src/sorting.go).  The float64 field UploadRatio is
modelled as ℚ and named UploadRatio' (trailing prime, see header). -/
structure Torrent where
  ID : Int
  Name : String
  Status : Int
  AddedDate : Int
  LeftUntilDone : Nat
  SizeWhenDone : Nat
  Eta : Int
  UploadRatio' : ℚ
  RateDownload : Nat
  RateUpload : Nat
  DownloadDir : String
  DownloadedEver : Nat
  UploadedEver : Nat
  IsFinished : Bool
  PercentDone : ℚ
  SeedRatioMode : Int
  Trackers : List tracker
  Error : Int
  ErrorString : String
deriving DecidableEq

/-- The Go zero value Torrent, i.e. the result of new(Torrent). -/
def emptyTorrent : Torrent :=
  ⟨0, "", 0, 0, 0, 0, 0, 0, 0, 0, "", 0, 0, false, 0, 0, [], 0, ""⟩

instance : Inhabited Torrent := ⟨emptyTorrent⟩

/-- Torrents represents type Torrents of the source. -/
abbrev Torrents := List Torrent

/-- byID.Less (src/sorting.go line 40). -/
def lessByID (x y : Torrent) : Bool := decide (x.ID < y.ID)

/-- byName.Less (src/sorting.go line 44). -/
def lessByName (x y : Torrent) : Bool := decide (x.Name < y.Name)

/-- byAge.Less (src/sorting.go line 48). -/
def lessByAge (x y : Torrent) : Bool := decide (x.AddedDate < y.AddedDate)

/-- bySize.Less (src/sorting.go line 52). -/
def lessBySize (x y : Torrent) : Bool := decide (x.SizeWhenDone < y.SizeWhenDone)

/-- byProgress.Less (src/sorting.go line 56). -/
def lessByProgress (x y : Torrent) : Bool := decide (x.PercentDone < y.PercentDone)

/-- byDownloaded.Less (src/sorting.go line 60). -/
def lessByDownloaded (x y : Torrent) : Bool := decide (x.DownloadedEver < y.DownloadedEver)

/-- byUploaded.Less (src/sorting.go line 64). -/
def lessByUploaded (x y : Torrent) : Bool := decide (x.UploadedEver < y.UploadedEver)

/-- byRatio.Less (src/sorting.go line 68); primed name, see header. -/
def lessByRatio' (x y : Torrent) : Bool := decide (x.UploadRatio' < y.UploadRatio')

/-- sort.Reverse of the Go sort package: the wrapped comparator
Less(i, j) becomes Less(j, i); Swap and Len are unchanged. -/
def reverseLess (lt : α → α → Bool) : α → α → Bool := fun x y => lt y x

/-- data.Swap(i, j) on the list model.  Go would panic on an
out-of-range index; the model leaves the list unchanged there (no
in-range call site of the algorithm reaches that branch). -/
def aswap [Inhabited α] (l : List α) (i j : Nat) : List α :=
  if i < l.length ∧ j < l.length then
    (l.set i (l.getD j default)).set j (l.getD i default)
  else l

/-- Inner loop of insertionSort (Go sort package):
for j := i; j > a and data.Less(j, j-1); j-- : data.Swap(j, j-1).
The second argument is the loop variable j. -/
def insertionInner [Inhabited α] (lt : α → α → Bool) (a : Nat) : List α → Nat → List α
  | l, 0 => l
  | l, j+1 =>
    if a < j + 1 && lt (l.getD (j+1) default) (l.getD j default) then
      insertionInner lt a (aswap l (j+1) j) j
    else l

/-- Outer loop of insertionSort (Go sort package):
for i := a+1; i < b; i++.  Fuel b dominates the trip count. -/
def insertionFrom [Inhabited α] (lt : α → α → Bool) (a b : Nat) : Nat → Nat → List α → List α
  | 0, _, l => l
  | fuel+1, i, l =>
    if i < b then insertionFrom lt a b fuel (i+1) (insertionInner lt a l i) else l

/-- insertionSort(data, a, b) of the Go sort package. -/
def insertionSortGo [Inhabited α] (lt : α → α → Bool) (a b : Nat) (l : List α) : List α :=
  insertionFrom lt a b b (a+1) l

/-- ShellSort pass with gap 6 run by quickSort on segments of at most 12
elements: for i := a+6; i < b; i++ : if data.Less(i, i-6) swap(i, i-6). -/
def shellFrom [Inhabited α] (lt : α → α → Bool) (b : Nat) : Nat → Nat → List α → List α
  | 0, _, l => l
  | fuel+1, i, l =>
    if i < b then
      shellFrom lt b fuel (i+1)
        (if lt (l.getD i default) (l.getD (i-6) default) then aswap l i (i-6) else l)
    else l

/-- siftDown(data, lo, hi, first) of the Go sort package; the second
argument of the recursion is the loop variable root (initially lo). -/
def siftDownGo [Inhabited α] (lt : α → α → Bool) (hi first : Nat) : Nat → Nat → List α → List α
  | 0, _, l => l
  | fuel+1, root, l =>
    let child := 2*root + 1
    if child ≥ hi then l
    else
      let child :=
        if child + 1 < hi && lt (l.getD (first+child) default) (l.getD (first+child+1) default)
        then child + 1 else child
      if !(lt (l.getD (first+root) default) (l.getD (first+child) default)) then l
      else siftDownGo lt hi first fuel child (aswap l (first+root) (first+child))

/-- Heap building loop of heapSort: for i := (hi-1)/2; i >= 0; i--:
siftDown(data, i, hi, first).  The counter argument is i+1. -/
def heapBuild [Inhabited α] (lt : α → α → Bool) (first hi : Nat) : Nat → List α → List α
  | 0, l => l
  | c+1, l => heapBuild lt first hi c (siftDownGo lt hi first hi c l)

/-- Heap popping loop of heapSort: for i := hi-1; i >= 0; i--:
data.Swap(first, first+i); siftDown(data, lo, i, first). -/
def heapPop [Inhabited α] (lt : α → α → Bool) (first : Nat) : Nat → List α → List α
  | 0, l => l
  | c+1, l => heapPop lt first c (siftDownGo lt c first c 0 (aswap l first (first + c)))

/-- heapSort(data, a, b) of the Go sort package. -/
def heapSortGo [Inhabited α] (lt : α → α → Bool) (a b : Nat) (l : List α) : List α :=
  heapPop lt a (b - a) (heapBuild lt a (b - a) ((b - a - 1)/2 + 1) l)

/-- medianOfThree(data, m1, m0, m2) of the Go sort package. -/
def medianOfThree [Inhabited α] (lt : α → α → Bool) (l : List α) (m1 m0 m2 : Nat) : List α :=
  let l := if lt (l.getD m1 default) (l.getD m0 default) then aswap l m1 m0 else l
  if lt (l.getD m2 default) (l.getD m1 default) then
    let l := aswap l m2 m1
    if lt (l.getD m1 default) (l.getD m0 default) then aswap l m1 m0 else l
  else l

/-- doPivot pre-partition scan: for ; a < c and data.Less(a, pivot); a++. -/
def advanceLess [Inhabited α] (lt : α → α → Bool) (l : List α) (p c : Nat) : Nat → Nat → Nat
  | 0, a => a
  | fuel+1, a =>
    if a < c && lt (l.getD a default) (l.getD p default) then advanceLess lt l p c fuel (a+1)
    else a

/-- doPivot partition scan: for ; b < c and not data.Less(pivot, b); b++. -/
def advanceNotGreater [Inhabited α] (lt : α → α → Bool) (l : List α) (p c : Nat) : Nat → Nat → Nat
  | 0, b => b
  | fuel+1, b =>
    if b < c && !(lt (l.getD p default) (l.getD b default)) then
      advanceNotGreater lt l p c fuel (b+1)
    else b

/-- doPivot partition scan: for ; b < c and data.Less(pivot, c-1); c--. -/
def retreatGreater [Inhabited α] (lt : α → α → Bool) (l : List α) (p b : Nat) : Nat → Nat → Nat
  | 0, c => c
  | fuel+1, c =>
    if b < c && lt (l.getD p default) (l.getD (c-1) default) then retreatGreater lt l p b fuel (c-1)
    else c

/-- Main partition loop of doPivot (Go sort package). -/
def partitionLoop [Inhabited α] (lt : α → α → Bool) (p : Nat) :
    Nat → List α → Nat → Nat → List α × Nat × Nat
  | 0, l, b, c => (l, b, c)
  | fuel+1, l, b, c =>
    let b' := advanceNotGreater lt l p c c b
    let c' := retreatGreater lt l p b' c c
    if b' ≥ c' then (l, b', c')
    else partitionLoop lt p fuel (aswap l b' (c'-1)) (b'+1) (c'-1)

/-- Duplicate-protection scan of doPivot: for ; a < b and not data.Less(b-1, pivot); b--. -/
def retreatEq [Inhabited α] (lt : α → α → Bool) (l : List α) (p a : Nat) : Nat → Nat → Nat
  | 0, b => b
  | fuel+1, b =>
    if a < b && !(lt (l.getD (b-1) default) (l.getD p default)) then retreatEq lt l p a fuel (b-1)
    else b

/-- Duplicate-protection scan of doPivot: for ; a < b and data.Less(a, pivot); a++. -/
def advanceStrict [Inhabited α] (lt : α → α → Bool) (l : List α) (p b : Nat) : Nat → Nat → Nat
  | 0, a => a
  | fuel+1, a =>
    if a < b && lt (l.getD a default) (l.getD p default) then advanceStrict lt l p b fuel (a+1)
    else a

/-- Duplicate-protection loop of doPivot (Go sort package); returns the
final b (the final a is dead in the source as well). -/
def protectLoop [Inhabited α] (lt : α → α → Bool) (p : Nat) :
    Nat → List α → Nat → Nat → List α × Nat
  | 0, l, _, b => (l, b)
  | fuel+1, l, a, b =>
    let b' := retreatEq lt l p a b b
    let a' := advanceStrict lt l p b' b' a
    if a' ≥ b' then (l, b')
    else protectLoop lt p fuel (aswap l a' (b'-1)) (a'+1) (b'-1)

/-- Tukey ninther step of doPivot (Go sort package), run when the
segment is longer than 40 elements: three medianOfThree passes. -/
def nintherGo [Inhabited α] (lt : α → α → Bool) (l : List α) (lo hi m : Nat) : List α :=
  if hi - lo > 40 then
    let s := (hi - lo) / 8
    medianOfThree lt
      (medianOfThree lt (medianOfThree lt l lo (lo+s) (lo+2*s)) m (m-s) (m+s))
      (hi-1) (hi-1-s) (hi-1-2*s)
  else l

/-- Duplicate-detection step of doPivot (Go sort package): probes up to
three positions for equality with the pivot and decides whether to run
the protect loop; returns the list, b, c and the protect flag. -/
def dupsGo [Inhabited α] (lt : α → α → Bool) (l : List α) (p m b c lo hi : Nat) :
    List α × Nat × Nat × Bool :=
  let protect0 := decide (hi - c < 5)
  if !protect0 && decide (hi - c < (hi - lo)/4) then
    let cond1 := !(lt (l.getD p default) (l.getD (hi-1) default))
    let l1 := if cond1 then aswap l c (hi-1) else l
    let c1 := if cond1 then c + 1 else c
    let d1 : Nat := if cond1 then 1 else 0
    let cond2 := !(lt (l1.getD (b-1) default) (l1.getD p default))
    let b2 := if cond2 then b - 1 else b
    let d2 := if cond2 then d1 + 1 else d1
    let cond3 := !(lt (l1.getD m default) (l1.getD p default))
    let l2 := if cond3 then aswap l1 m (b2-1) else l1
    let b3 := if cond3 then b2 - 1 else b2
    let d3 := if cond3 then d2 + 1 else d2
    (l2, b3, c1, decide (d3 > 1))
  else (l, b, c, protect0)

/-- doPivot(data, lo, hi) of the Go sort package; returns the list and
(midlo, midhi). -/
def doPivotGo [Inhabited α] (lt : α → α → Bool) (l : List α) (lo hi : Nat) :
    List α × Nat × Nat :=
  let m := (lo + hi) / 2
  let l := nintherGo lt l lo hi m
  let l := medianOfThree lt l lo m (hi-1)
  let p := lo
  let a0 := advanceLess lt l p (hi-1) (hi-1) (lo+1)
  let lbc := partitionLoop lt p hi l a0 (hi-1)
  let st := dupsGo lt lbc.1 p m lbc.2.1 lbc.2.2 lo hi
  let lb := if st.2.2.2 then protectLoop lt p hi st.1 a0 st.2.1 else (st.1, st.2.1)
  (aswap lb.1 p (lb.2-1), lb.2-1, st.2.2.1)

/-- maxDepth(n) of the Go sort package: 2 times the bit length of n.
The bit-length loop (for i := n; i > 0; i >>= 1) is fuelled by n. -/
def bitLenF : Nat → Nat → Nat
  | 0, _ => 0
  | fuel+1, n => if n = 0 then 0 else bitLenF fuel (n / 2) + 1

/-- maxDepth(n) = depth * 2 where depth is the bit length of n. -/
def maxDepthGo (n : Nat) : Nat := 2 * bitLenF n n

/-- quickSort(data, a, b, maxDepth) of the Go sort package.  The while
loop over segments larger than 12 is fuelled; the last arguments are
a, b and maxDepth. -/
def quickSortGo [Inhabited α] (lt : α → α → Bool) : Nat → List α → Nat → Nat → Nat → List α
  | 0, l, _, _, _ => l
  | fuel+1, l, a, b, maxDepth =>
    if b - a > 12 then
      if maxDepth = 0 then heapSortGo lt a b l
      else
        let lmm := doPivotGo lt l a b
        let l := lmm.1
        let mlo := lmm.2.1
        let mhi := lmm.2.2
        if mlo - a < b - mhi then
          quickSortGo lt fuel (quickSortGo lt fuel l a mlo (maxDepth-1)) mhi b (maxDepth-1)
        else
          quickSortGo lt fuel (quickSortGo lt fuel l mhi b (maxDepth-1)) a mlo (maxDepth-1)
    else
      if b - a > 1 then insertionSortGo lt a b (shellFrom lt b b (a+6) l)
      else l

/-- sort.Sort(data) of the Go sort package: quickSort(data, 0, n, maxDepth(n)). -/
def sortGo [Inhabited α] (lt : α → α → Bool) (l : List α) : List α :=
  quickSortGo lt (l.length + 1) l 0 l.length (maxDepthGo l.length)

/-- sort.Sort(sort.Reverse(data)): same sort with the reversed comparator. -/
def sortRevGo [Inhabited α] (lt : α → α → Bool) (l : List α) : List α :=
  sortGo (reverseLess lt) l

/-- Torrents.SortID (src/sorting.go lines 70-76). -/
def Torrents.SortID (t : Torrents) (reverse : Bool) : Torrents :=
  if reverse then sortRevGo lessByID t else sortGo lessByID t

/-- Torrents.SortName (src/sorting.go lines 78-84). -/
def Torrents.SortName (t : Torrents) (reverse : Bool) : Torrents :=
  if reverse then sortRevGo lessByName t else sortGo lessByName t

/-- Torrents.SortAge (src/sorting.go lines 86-92). -/
def Torrents.SortAge (t : Torrents) (reverse : Bool) : Torrents :=
  if reverse then sortRevGo lessByAge t else sortGo lessByAge t

/-- Torrents.SortSize (src/sorting.go lines 94-100). -/
def Torrents.SortSize (t : Torrents) (reverse : Bool) : Torrents :=
  if reverse then sortRevGo lessBySize t else sortGo lessBySize t

/-- Torrents.SortProgress (src/sorting.go lines 102-108). -/
def Torrents.SortProgress (t : Torrents) (reverse : Bool) : Torrents :=
  if reverse then sortRevGo lessByProgress t else sortGo lessByProgress t

/-- Torrents.SortDownloaded (src/sorting.go lines 110-116). -/
def Torrents.SortDownloaded (t : Torrents) (reverse : Bool) : Torrents :=
  if reverse then sortRevGo lessByDownloaded t else sortGo lessByDownloaded t

/-- Torrents.SortUploaded (src/sorting.go lines 118-124). -/
def Torrents.SortUploaded (t : Torrents) (reverse : Bool) : Torrents :=
  if reverse then sortRevGo lessByUploaded t else sortGo lessByUploaded t

/-- Torrents.SortRatio (src/sorting.go lines 126-132); primed name. -/
def Torrents.SortRatio' (t : Torrents) (reverse : Bool) : Torrents :=
  if reverse then sortRevGo lessByRatio' t else sortGo lessByRatio' t

/-- type Sorting int (src/sorting.go line 5). -/
abbrev Sorting := Int

/-- Sorting constant SortID = iota = 0 (src/sorting.go lines 7-24). -/
def SortID : Sorting := 0

/-- Sorting constant SortRevID. -/
def SortRevID : Sorting := 1

/-- Sorting constant SortName. -/
def SortName : Sorting := 2

/-- Sorting constant SortRevName. -/
def SortRevName : Sorting := 3

/-- Sorting constant SortAge. -/
def SortAge : Sorting := 4

/-- Sorting constant SortRevAge. -/
def SortRevAge : Sorting := 5

/-- Sorting constant SortSize. -/
def SortSize : Sorting := 6

/-- Sorting constant SortRevSize. -/
def SortRevSize : Sorting := 7

/-- Sorting constant SortProgress. -/
def SortProgress : Sorting := 8

/-- Sorting constant SortRevProgress. -/
def SortRevProgress : Sorting := 9

/-- Sorting constant SortDownloaded. -/
def SortDownloaded : Sorting := 10

/-- Sorting constant SortRevDownloaded. -/
def SortRevDownloaded : Sorting := 11

/-- Sorting constant SortUploaded. -/
def SortUploaded : Sorting := 12

/-- Sorting constant SortRevUploaded. -/
def SortRevUploaded : Sorting := 13

/-- Sorting constant SortRatio (primed name). -/
def SortRatio' : Sorting := 14

/-- Sorting constant SortRevRatio (primed name). -/
def SortRevRatio' : Sorting := 15

/-- The sorting switch of TransmissionClient.GetTorrents
(src/sorting.go lines 321-355): case SortID returns the list as
received (already sorted by ID); each other defined mode sorts in
place; a value outside the defined constants matches no case and the
list is returned as received. -/
def sortSwitch (st : Sorting) (torrents : Torrents) : Torrents :=
  if st = SortID then torrents
  else if st = SortRevID then Torrents.SortID torrents true
  else if st = SortName then Torrents.SortName torrents false
  else if st = SortRevName then Torrents.SortName torrents true
  else if st = SortAge then Torrents.SortAge torrents false
  else if st = SortRevAge then Torrents.SortAge torrents true
  else if st = SortSize then Torrents.SortSize torrents false
  else if st = SortRevSize then Torrents.SortSize torrents true
  else if st = SortProgress then Torrents.SortProgress torrents false
  else if st = SortRevProgress then Torrents.SortProgress torrents true
  else if st = SortDownloaded then Torrents.SortDownloaded torrents false
  else if st = SortRevDownloaded then Torrents.SortDownloaded torrents true
  else if st = SortUploaded then Torrents.SortUploaded torrents false
  else if st = SortRevUploaded then Torrents.SortUploaded torrents true
  else if st = SortRatio' then Torrents.SortRatio' torrents false
  else if st = SortRevRatio' then Torrents.SortRatio' torrents true
  else torrents

/-- Torrents.GetIDs (src/sorting.go lines 288-294): the identifiers of
the torrents in list order (the source builds it with an append loop). -/
def Torrents.GetIDs (t : Torrents) : List Int := t.map Torrent.ID

/-- Model of fmt.Sprintf %d on the Int model of a Go int (decimal digits,
identical to Go for every integer). -/
def fmtInt (n : Int) : String := toString n

/-- Model of fmt.Sprintf %.3f on the ℚ model of a float64, for the
non-negative arguments on which the source applies it: the value rounded
to the nearest thousandth (the model rounds half up), rendered with
exactly three fractional digits. -/
def fmt3 (q : ℚ) : String :=
  let m : Int := (2000 * q.num + q.den) / (2 * q.den)
  toString (m / 1000) ++ "." ++
    (if m % 1000 < 10 then "00" else if m % 1000 < 100 then "0" else "") ++ toString (m % 1000)

/-- Torrent.Ratio (src/sorting.go lines 269-274): the negative sentinel
renders as the infinity symbol, otherwise %.3f of the ratio.  Primed
name, see header. -/
def Torrent.Ratio' (t : Torrent) : String :=
  if t.UploadRatio' < 0 then "∞" else fmt3 t.UploadRatio'

/-- Torrent.ETA (src/sorting.go lines 277-282): the negative sentinel
renders as the infinity symbol, otherwise %d of the eta. -/
def Torrent.ETA (t : Torrent) : String :=
  if t.Eta < 0 then "∞" else fmtInt t.Eta

/-! Command envelope, wire marshalling and the command executor. -/

/-- Go struct TorrentAdded zero value. -/
def emptyTorrentAdded : TorrentAdded := ⟨"", 0, ""⟩

/-- cumulativeStats zero value. -/
def emptyCumulative : cumulativeStats := ⟨0, 0, 0, 0, 0⟩

/-- currentStats zero value. -/
def emptyCurrent : currentStats := ⟨0, 0, 0, 0, 0⟩

/-- Go struct arguments (src/sorting.go lines 164-182), in source field
order with the json tags recorded by the marshaller below. -/
structure arguments where
  Fields : List String
  Torrents : Torrents
  Ids : List Int
  DeleteData : Bool
  DownloadDir : String
  MetaInfo : String
  Filename : String
  TorrentAdded : TorrentAdded
  ActiveTorrentCount : Int
  CumulativeStats : cumulativeStats
  CurrentStats : currentStats
  DownloadSpeed : Nat
  PausedTorrentCount : Int
  TorrentCount : Int
  UploadSpeed : Nat
  Version : String
deriving DecidableEq

/-- arguments zero value. -/
def emptyArguments : arguments :=
  ⟨[], [], [], false, "", "", "", emptyTorrentAdded, 0, emptyCumulative, emptyCurrent,
    0, 0, 0, 0, ""⟩

/-- Go struct Command (src/sorting.go lines 158-162). -/
structure Command where
  Method : String
  Arguments : arguments
  Result : String
deriving DecidableEq

/-- Command zero value, as in out := new(Command). -/
def emptyCommand : Command := ⟨"", emptyArguments, ""⟩

/-- Go struct Stats (src/sorting.go lines 199-207). -/
structure Stats where
  ActiveTorrentCount : Int
  CumulativeStats : cumulativeStats
  CurrentStats : currentStats
  DownloadSpeed : Nat
  PausedTorrentCount : Int
  TorrentCount : Int
  UploadSpeed : Nat
deriving DecidableEq

/-- JSON values, the wire form produced by encoding/json on a request. -/
inductive Json where
  | null
  | str (s : String)
  | num (n : Int)
  | rat (q : ℚ)
  | bool (b : Bool)
  | arr (elems : List Json)
  | obj (members : List (String × Json))

/-- json.Marshal of a tracker value: no omitempty on any field. -/
def marshalTracker (t : tracker) : Json :=
  .obj [("announce", .str t.Announce), ("id", .num t.Id), ("scrape", .str t.Scrape),
    ("tire", .num t.Tire)]

/-- json.Marshal of a Torrent value: no omitempty on any field; a nil
trackers slice marshals to null. -/
def marshalTorrent (t : Torrent) : Json :=
  .obj [("id", .num t.ID), ("name", .str t.Name), ("status", .num t.Status),
    ("addedDate", .num t.AddedDate), ("leftUntilDone", .num (t.LeftUntilDone : Int)),
    ("sizeWhenDone", .num (t.SizeWhenDone : Int)), ("eta", .num t.Eta),
    ("uploadRatio", .rat t.UploadRatio'), ("rateDownload", .num (t.RateDownload : Int)),
    ("rateUpload", .num (t.RateUpload : Int)), ("downloadDir", .str t.DownloadDir),
    ("downloadedEver", .num (t.DownloadedEver : Int)),
    ("uploadedEver", .num (t.UploadedEver : Int)), ("isFinished", .bool t.IsFinished),
    ("percentDone", .rat t.PercentDone), ("seedRatioMode", .num t.SeedRatioMode),
    ("trackers", if t.Trackers = [] then .null else .arr (t.Trackers.map marshalTracker)),
    ("error", .num t.Error), ("errorString", .str t.ErrorString)]

/-- json.Marshal of a TorrentAdded value: no omitempty on any field. -/
def marshalTorrentAdded (t : TorrentAdded) : Json :=
  .obj [("hashString", .str t.HashString), ("id", .num t.ID), ("name", .str t.Name)]

/-- json.Marshal of a cumulativeStats value. -/
def marshalCumulative (s : cumulativeStats) : Json :=
  .obj [("downloadedBytes", .num (s.DownloadedBytes : Int)), ("filesAdded", .num s.FilesAdded),
    ("secondsActive", .num s.SecondsActive), ("sessionCount", .num s.SessionCount),
    ("uploadedBytes", .num (s.UploadedBytes : Int))]

/-- json.Marshal of a currentStats value. -/
def marshalCurrent (s : currentStats) : Json :=
  .obj [("downloadedBytes", .num (s.DownloadedBytes : Int)), ("filesAdded", .num s.FilesAdded),
    ("secondsActive", .num s.SecondsActive), ("sessionCount", .num s.SessionCount),
    ("uploadedBytes", .num (s.UploadedBytes : Int))]

/-- json.Marshal of an arguments value, following the struct tags of
src/sorting.go lines 164-182: the first seven fields carry omitempty and
are dropped at their zero value; torrent-added, the session counters and
version carry no omitempty and are always emitted. -/
def marshalArguments (a : arguments) : Json :=
  .obj
    ((if a.Fields = [] then [] else [("fields", Json.arr (a.Fields.map Json.str))]) ++
     (if a.Torrents = [] then [] else [("torrents", Json.arr (a.Torrents.map marshalTorrent))]) ++
     (if a.Ids = [] then [] else [("ids", Json.arr (a.Ids.map Json.num))]) ++
     (if a.DeleteData = false then [] else [("delete-local-data", Json.bool a.DeleteData)]) ++
     (if a.DownloadDir = "" then [] else [("download-dir", Json.str a.DownloadDir)]) ++
     (if a.MetaInfo = "" then [] else [("metainfo", Json.str a.MetaInfo)]) ++
     (if a.Filename = "" then [] else [("filename", Json.str a.Filename)]) ++
     [("torrent-added", marshalTorrentAdded a.TorrentAdded),
      ("activeTorrentCount", Json.num a.ActiveTorrentCount),
      ("cumulative-stats", marshalCumulative a.CumulativeStats),
      ("current-stats", marshalCurrent a.CurrentStats),
      ("downloadSpeed", Json.num (a.DownloadSpeed : Int)),
      ("pausedTorrentCount", Json.num a.PausedTorrentCount),
      ("torrentCount", Json.num a.TorrentCount),
      ("uploadSpeed", Json.num (a.UploadSpeed : Int)),
      ("version", Json.str a.Version)])

/-- json.Marshal of a Command value: method and result carry omitempty;
arguments carries omitempty as well, but Go never treats a struct value
as empty, so the arguments object is always emitted. -/
def marshalCommand (c : Command) : Json :=
  .obj
    ((if c.Method = "" then [] else [("method", Json.str c.Method)]) ++
     [("arguments", marshalArguments c.Arguments)] ++
     (if c.Result = "" then [] else [("result", Json.str c.Result)]))

/-- The keys of a JSON object, in emission order. -/
def objKeys : Json → List String
  | .obj ms => ms.map Prod.fst
  | _ => []

/-- The keys present inside the arguments object of the wire form of a
command. -/
def argumentKeys (c : Command) : List String := objKeys (marshalArguments c.Arguments)

/-- Go error values held by the client: Post failures (transport),
json.Unmarshal failures (decode) and errors.New values.  Distinct
constructors model distinct Go error values. -/
inductive GoError where
  | transportErr (msg : String)
  | decodeErr (msg : String)
  | newErr (msg : String)
deriving DecidableEq

/-- What the transport hands back for one posted body: a Post error,
bytes that fail to unmarshal, or bytes that unmarshal to a reply. -/
inductive PostOut where
  | fail (e : GoError)
  | malformed (msg : String)
  | reply (out : Command)

/-- The transport collaborator ApiClient.Post as an opaque environment:
a function from the marshalled request body to its outcome. -/
abbrev Env := Json → PostOut

/-- NewGetTorrentsCmd (src/sorting.go lines 480-490). -/
def NewGetTorrentsCmd : Command :=
  { emptyCommand with
    Method := "torrent-get",
    Arguments :=
      { emptyArguments with
        Fields := ["id", "name", "status", "addedDate", "leftUntilDone", "sizeWhenDone",
          "eta", "uploadRatio", "uploadedEver", "rateDownload", "rateUpload", "downloadDir",
          "isFinished", "downloadedEver", "percentDone", "seedRatioMode", "error",
          "errorString", "trackers"] } }

/-- The command built inside GetTorrent (src/sorting.go lines 362-363):
NewGetTorrentsCmd with the single id appended to the empty Ids. -/
def getTorrentCmd (id : Int) : Command :=
  { NewGetTorrentsCmd with
    Arguments := { NewGetTorrentsCmd.Arguments with Ids := [id] } }

/-- NewAddCmd (src/sorting.go lines 492-496). -/
def NewAddCmd : Command := { emptyCommand with Method := "torrent-add" }

/-- NewAddCmdByURL (src/sorting.go lines 499-503): URL or magnet. -/
def NewAddCmdByURL (url : String) : Command :=
  { NewAddCmd with Arguments := { NewAddCmd.Arguments with Filename := url } }

/-- NewAddCmdByFilename (src/sorting.go lines 505-509). -/
def NewAddCmdByFilename (filename : String) : Command :=
  { NewAddCmd with Arguments := { NewAddCmd.Arguments with Filename := filename } }

/-- Command.SetDownloadDir (src/sorting.go lines 524-526). -/
def Command.SetDownloadDir (cmd : Command) (dir : String) : Command :=
  { cmd with Arguments := { cmd.Arguments with DownloadDir := dir } }

/-- newDelCmd (src/sorting.go lines 528-534). -/
def newDelCmd (id : Int) (removeFile : Bool) : Command :=
  { emptyCommand with
    Method := "torrent-remove",
    Arguments := { emptyArguments with Ids := [id], DeleteData := removeFile } }

/-- The command built by sendSimpleCommand (src/sorting.go lines 580-582). -/
def simpleCmd (method : String) (id : Int) : Command :=
  { emptyCommand with Method := method, Arguments := { emptyArguments with Ids := [id] } }

/-- The command built by the bulk operations (src/sorting.go lines
432-478): a method tag plus the id list obtained from the list query. -/
def bulkCmd (method : String) (ids : List Int) : Command :=
  { emptyCommand with Method := method, Arguments := { emptyArguments with Ids := ids } }

/-- The session-stats command of GetStats (src/sorting.go lines 396-398). -/
def statsCmd : Command := { emptyCommand with Method := "session-stats" }

/-- The session-get command of Version (src/sorting.go line 574). -/
def versionCmd : Command := { emptyCommand with Method := "session-get" }

/-- TransmissionClient.ExecuteCommand (src/sorting.go lines 536-553):
marshal the command (which cannot fail on this value domain), Post the
body, unmarshal the reply; each failure is returned with the zero
Command.  The second component is the list of bodies posted. -/
def ExecuteCommand (env : Env) (cmd : Command) : (Command × Option GoError) × List Json :=
  let body := marshalCommand cmd
  match env body with
  | .fail e => ((emptyCommand, some e), [body])
  | .malformed m => ((emptyCommand, some (.decodeErr m)), [body])
  | .reply out => ((out, none), [body])

/-- TransmissionClient.sendCommand (src/sorting.go lines 587-601): the
same pipeline as ExecuteCommand on a Command value. -/
def sendCommand (env : Env) (cmd : Command) : (Command × Option GoError) × List Json :=
  let body := marshalCommand cmd
  match env body with
  | .fail e => ((emptyCommand, some e), [body])
  | .malformed m => ((emptyCommand, some (.decodeErr m)), [body])
  | .reply out => ((out, none), [body])

/-- The package-global var sortType default: SortID, the default of transmission (src/sorting.go line 297). -/
def sortTypeDefault : Sorting := SortID

/-- TransmissionClient.SetSort (src/sorting.go lines 300-302): models the
assignment to the package-global sortType; the result is the value the
next GetTorrents call reads. -/
def SetSort (st : Sorting) : Sorting := st

/-- TransmissionClient.GetTorrents (src/sorting.go lines 311-358),
with the package-global sortType passed explicitly. -/
def GetTorrents (env : Env) (sortType : Sorting) : (Torrents × Option GoError) × List Json :=
  let r := ExecuteCommand env NewGetTorrentsCmd
  match r.1.2 with
  | some e => (([], some e), r.2)
  | none => ((sortSwitch sortType r.1.1.Arguments.Torrents, none), r.2)

/-- TransmissionClient.GetTorrent (src/sorting.go lines 361-374). -/
def GetTorrent (env : Env) (id : Int) : (Torrent × Option GoError) × List Json :=
  let r := ExecuteCommand env (getTorrentCmd id)
  match r.1.2 with
  | some e => ((emptyTorrent, some e), r.2)
  | none =>
    match r.1.1.Arguments.Torrents with
    | t :: _ => ((t, none), r.2)
    | [] => ((emptyTorrent, some (.newErr "No torrent with that id")), r.2)

/-- TransmissionClient.DeleteTorrent (src/sorting.go lines 378-392). -/
def DeleteTorrent (env : Env) (id : Int) (wd : Bool) : (String × Option GoError) × List Json :=
  let g := GetTorrent env id
  match g.1.2 with
  | some e => (("", some e), g.2)
  | none =>
    let r := ExecuteCommand env (newDelCmd id wd)
    match r.1.2 with
    | some e => (("", some e), g.2 ++ r.2)
    | none => ((g.1.1.Name, none), g.2 ++ r.2)

/-- TransmissionClient.GetStats (src/sorting.go lines 395-414). -/
def GetStats (env : Env) : (Option Stats × Option GoError) × List Json :=
  let r := ExecuteCommand env statsCmd
  match r.1.2 with
  | some e => ((none, some e), r.2)
  | none =>
    ((some ⟨r.1.1.Arguments.ActiveTorrentCount, r.1.1.Arguments.CumulativeStats,
      r.1.1.Arguments.CurrentStats, r.1.1.Arguments.DownloadSpeed,
      r.1.1.Arguments.PausedTorrentCount, r.1.1.Arguments.TorrentCount,
      r.1.1.Arguments.UploadSpeed⟩, none), r.2)

/-- TransmissionClient.sendSimpleCommand (src/sorting.go lines 580-585):
returns resp.Result together with the error of sendCommand. -/
def sendSimpleCommand (env : Env) (method : String) (id : Int) :
    (String × Option GoError) × List Json :=
  let r := sendCommand env (simpleCmd method id)
  ((r.1.1.Result, r.1.2), r.2)

/-- TransmissionClient.StartTorrent (src/sorting.go lines 417-419). -/
def StartTorrent (env : Env) (id : Int) : (String × Option GoError) × List Json :=
  sendSimpleCommand env "torrent-start" id

/-- TransmissionClient.StopTorrent (src/sorting.go lines 422-424). -/
def StopTorrent (env : Env) (id : Int) : (String × Option GoError) × List Json :=
  sendSimpleCommand env "torrent-stop" id

/-- TransmissionClient.VerifyTorrent (src/sorting.go lines 427-429). -/
def VerifyTorrent (env : Env) (id : Int) : (String × Option GoError) × List Json :=
  sendSimpleCommand env "torrent-verify" id

/-- TransmissionClient.StartAll (src/sorting.go lines 432-445): a fresh
GetTorrents, then one torrent-start request carrying GetIDs of the
returned list. -/
def StartAll (env : Env) (sortType : Sorting) : Option GoError × List Json :=
  let g := GetTorrents env sortType
  match g.1.2 with
  | some e => (some e, g.2)
  | none =>
    let r := sendCommand env (bulkCmd "torrent-start" (Torrents.GetIDs g.1.1))
    match r.1.2 with
    | some e => (some e, g.2 ++ r.2)
    | none => (none, g.2 ++ r.2)

/-- TransmissionClient.StopAll (src/sorting.go lines 448-461). -/
def StopAll (env : Env) (sortType : Sorting) : Option GoError × List Json :=
  let g := GetTorrents env sortType
  match g.1.2 with
  | some e => (some e, g.2)
  | none =>
    let r := sendCommand env (bulkCmd "torrent-stop" (Torrents.GetIDs g.1.1))
    match r.1.2 with
    | some e => (some e, g.2 ++ r.2)
    | none => (none, g.2 ++ r.2)

/-- TransmissionClient.VerifyAll (src/sorting.go lines 464-478). -/
def VerifyAll (env : Env) (sortType : Sorting) : Option GoError × List Json :=
  let g := GetTorrents env sortType
  match g.1.2 with
  | some e => (some e, g.2)
  | none =>
    let r := sendCommand env (bulkCmd "torrent-verify" (Torrents.GetIDs g.1.1))
    match r.1.2 with
    | some e => (some e, g.2 ++ r.2)
    | none => (none, g.2 ++ r.2)

/-- TransmissionClient.ExecuteAddCommand (src/sorting.go lines 555-561). -/
def ExecuteAddCommand (env : Env) (addCmd : Command) :
    (TorrentAdded × Option GoError) × List Json :=
  let r := ExecuteCommand env addCmd
  match r.1.2 with
  | some e => ((emptyTorrentAdded, some e), r.2)
  | none => ((r.1.1.Arguments.TorrentAdded, none), r.2)

/-- TransmissionClient.Version (src/sorting.go lines 572-578): the error
of sendCommand is discarded (resp, _ :=) and only the version string is
returned; on failure that string is the zero value. -/
def Version (env : Env) : String × List Json :=
  let r := sendCommand env versionCmd
  (r.1.1.Arguments.Version, r.2)

/-! Concrete data used by the closed instances below. -/

/-- A torrent with the given identifier and name and zero values
elsewhere. -/
def mkT (id : Int) (name : String) : Torrent :=
  ⟨id, name, 0, 0, 0, 0, 0, 0, 0, 0, "", 0, 0, false, 0, 0, [], 0, ""⟩

/-- A torrent with the given upload ratio and zero values elsewhere. -/
def mkRatioT (q : ℚ) : Torrent :=
  ⟨0, "", 0, 0, 0, 0, 0, q, 0, 0, "", 0, 0, false, 0, 0, [], 0, ""⟩

/-- A torrent with the given eta and zero values elsewhere. -/
def mkEtaT (n : Int) : Torrent :=
  ⟨0, "", 0, 0, 0, 0, n, 0, 0, 0, "", 0, 0, false, 0, 0, [], 0, ""⟩

/-- Seven torrents: ID 9 first, then six torrents sharing ID 1 named B
through G in input order. -/
def exSeven : Torrents :=
  [mkT 9 "A", mkT 1 "B", mkT 1 "C", mkT 1 "D", mkT 1 "E", mkT 1 "F", mkT 1 "G"]

/-- Two torrents with equal identifiers. -/
def exPair : Torrents := [mkT 1 "x", mkT 1 "y"]

/-- An environment whose Post always succeeds with an empty reply. -/
def envEmptyReply : Env := fun _ => .reply emptyCommand

/-- An environment whose Post always fails with a transport error. -/
def envFail : Env := fun _ => .fail (.transportErr "connection refused")

/-- A reply carrying three torrents with identifiers 1, 2, 3. -/
def replyThree : Command :=
  { emptyCommand with
    Arguments := { emptyArguments with Torrents := [mkT 1 "a", mkT 2 "b", mkT 3 "c"] } }

/-- An environment whose Post always succeeds with replyThree. -/
def envThree : Env := fun _ => .reply replyThree

/-- The method member of a marshalled command body, when present. -/
def methodOf : Json → Option String
  | .obj (("method", Json.str m) :: _) => some m
  | _ => none

/-! Permutation lemmas: every mutation of the embedded sort goes through
aswap, so each routine returns a permutation of its input list. -/

theorem set_getD_perm [Inhabited α] :
    ∀ (t : List α) (m : Nat) (x : α), m < t.length →
      List.Perm ((t.getD m default) :: t.set m x) (x :: t) := by
  intro t
  induction t with
  | nil => intro m x h; simp at h
  | cons y s ih =>
    intro m x h
    cases m with
    | zero =>
      simp only [List.getD_cons_zero, List.set_cons_zero]
      exact List.Perm.swap x y s
    | succ k =>
      have hk : k < s.length := by simpa using h
      simp only [List.getD_cons_succ, List.set_cons_succ]
      have h1 : List.Perm (s.getD k default :: y :: s.set k x)
          (y :: s.getD k default :: s.set k x) := List.Perm.swap y (s.getD k default) _
      have h2 : List.Perm (y :: s.getD k default :: s.set k x) (y :: x :: s) :=
        List.Perm.cons y (ih k x hk)
      exact (h1.trans h2).trans (List.Perm.swap x y s)

theorem aswap_perm [Inhabited α] (l : List α) (i j : Nat) : List.Perm (aswap l i j) l := by
  have core : ∀ (l : List α) (i j : Nat), i < l.length → j < l.length →
      List.Perm ((l.set i (l.getD j default)).set j (l.getD i default)) l := by
    intro l
    induction l with
    | nil => intro i j hi _; simp at hi
    | cons x t ih =>
      intro i j hi hj
      cases i with
      | zero =>
        cases j with
        | zero => simp
        | succ m =>
          have hm : m < t.length := by simpa using hj
          simp only [List.getD_cons_zero, List.getD_cons_succ, List.set_cons_zero,
            List.set_cons_succ]
          exact set_getD_perm t m x hm
      | succ n =>
        cases j with
        | zero =>
          have hn : n < t.length := by simpa using hi
          simp only [List.getD_cons_zero, List.getD_cons_succ, List.set_cons_zero,
            List.set_cons_succ]
          exact set_getD_perm t n x hn
        | succ m =>
          have hn : n < t.length := by simpa using hi
          have hm : m < t.length := by simpa using hj
          simp only [List.getD_cons_succ, List.set_cons_succ]
          exact List.Perm.cons x (ih n m hn hm)
  unfold aswap
  split
  · next h => exact core l i j h.1 h.2
  · exact List.Perm.refl l

theorem aswap_length [Inhabited α] (l : List α) (i j : Nat) :
    (aswap l i j).length = l.length := by
  unfold aswap; split <;> simp

theorem insertionInner_perm [Inhabited α] (lt : α → α → Bool) (a : Nat) :
    ∀ (j : Nat) (l : List α), List.Perm (insertionInner lt a l j) l := by
  intro j
  induction j with
  | zero => intro l; exact .refl _
  | succ j ih =>
    intro l
    simp only [insertionInner]
    split
    · exact (ih _).trans (aswap_perm l (j+1) j)
    · exact .refl _

theorem insertionFrom_perm [Inhabited α] (lt : α → α → Bool) (a b : Nat) :
    ∀ (fuel i : Nat) (l : List α), List.Perm (insertionFrom lt a b fuel i l) l := by
  intro fuel
  induction fuel with
  | zero => intro i l; exact .refl _
  | succ f ih =>
    intro i l
    simp only [insertionFrom]
    split
    · exact (ih _ _).trans (insertionInner_perm lt a i l)
    · exact .refl _

theorem insertionSortGo_perm [Inhabited α] (lt : α → α → Bool) (a b : Nat) (l : List α) :
    List.Perm (insertionSortGo lt a b l) l :=
  insertionFrom_perm lt a b b (a+1) l

theorem shellFrom_perm [Inhabited α] (lt : α → α → Bool) (b : Nat) :
    ∀ (fuel i : Nat) (l : List α), List.Perm (shellFrom lt b fuel i l) l := by
  intro fuel
  induction fuel with
  | zero => intro i l; exact .refl _
  | succ f ih =>
    intro i l
    simp only [shellFrom]
    split
    · refine (ih _ _).trans ?_
      split
      · exact aswap_perm ..
      · exact .refl _
    · exact .refl _

theorem siftDownGo_perm [Inhabited α] (lt : α → α → Bool) (hi first : Nat) :
    ∀ (fuel root : Nat) (l : List α), List.Perm (siftDownGo lt hi first fuel root l) l := by
  intro fuel
  induction fuel with
  | zero => intro root l; exact .refl _
  | succ f ih =>
    intro root l
    simp only [siftDownGo]
    split
    · exact .refl _
    · split <;> split
      all_goals first
        | exact .refl _
        | exact (ih _ _).trans (aswap_perm ..)

theorem heapBuild_perm [Inhabited α] (lt : α → α → Bool) (first hi : Nat) :
    ∀ (c : Nat) (l : List α), List.Perm (heapBuild lt first hi c l) l := by
  intro c
  induction c with
  | zero => intro l; exact .refl _
  | succ c ih => intro l; exact (ih _).trans (siftDownGo_perm ..)

theorem heapPop_perm [Inhabited α] (lt : α → α → Bool) (first : Nat) :
    ∀ (c : Nat) (l : List α), List.Perm (heapPop lt first c l) l := by
  intro c
  induction c with
  | zero => intro l; exact .refl _
  | succ c ih =>
    intro l
    exact (ih _).trans ((siftDownGo_perm ..).trans (aswap_perm ..))

theorem heapSortGo_perm [Inhabited α] (lt : α → α → Bool) (a b : Nat) (l : List α) :
    List.Perm (heapSortGo lt a b l) l :=
  (heapPop_perm ..).trans (heapBuild_perm ..)

theorem condAswap_perm [Inhabited α] (l : List α) (c : Bool) (i j : Nat) :
    List.Perm (if c then aswap l i j else l) l := by
  split
  · exact aswap_perm ..
  · exact .refl _

theorem medianOfThree_perm [Inhabited α] (lt : α → α → Bool) (l : List α) (m1 m0 m2 : Nat) :
    List.Perm (medianOfThree lt l m1 m0 m2) l := by
  simp only [medianOfThree]
  split_ifs
  all_goals first
    | exact .refl _
    | exact aswap_perm ..
    | exact (aswap_perm ..).trans (aswap_perm ..)
    | exact (aswap_perm ..).trans ((aswap_perm ..).trans (aswap_perm ..))

theorem partitionLoop_perm [Inhabited α] (lt : α → α → Bool) (p : Nat) :
    ∀ (fuel : Nat) (l : List α) (b c : Nat),
      List.Perm (partitionLoop lt p fuel l b c).1 l := by
  intro fuel
  induction fuel with
  | zero => intro l b c; exact .refl _
  | succ f ih =>
    intro l b c
    simp only [partitionLoop]
    split
    · exact .refl _
    · exact (ih ..).trans (aswap_perm ..)

theorem protectLoop_perm [Inhabited α] (lt : α → α → Bool) (p : Nat) :
    ∀ (fuel : Nat) (l : List α) (a b : Nat),
      List.Perm (protectLoop lt p fuel l a b).1 l := by
  intro fuel
  induction fuel with
  | zero => intro l a b; exact .refl _
  | succ f ih =>
    intro l a b
    simp only [protectLoop]
    split
    · exact .refl _
    · exact (ih ..).trans (aswap_perm ..)

theorem nintherGo_perm [Inhabited α] (lt : α → α → Bool) (l : List α) (lo hi m : Nat) :
    List.Perm (nintherGo lt l lo hi m) l := by
  simp only [nintherGo]
  split
  · exact (medianOfThree_perm ..).trans ((medianOfThree_perm ..).trans (medianOfThree_perm ..))
  · exact .refl _

theorem dupsGo_perm [Inhabited α] (lt : α → α → Bool) (l : List α) (p m b c lo hi : Nat) :
    List.Perm (dupsGo lt l p m b c lo hi).1 l := by
  simp only [dupsGo]
  split
  · exact (condAswap_perm ..).trans (condAswap_perm ..)
  · exact .refl _

theorem doPivotGo_perm [Inhabited α] (lt : α → α → Bool) (l : List α) (lo hi : Nat) :
    List.Perm (doPivotGo lt l lo hi).1 l := by
  have hif : ∀ (l' : List α) (c : Bool) (p hi' a b : Nat),
      List.Perm (if c then protectLoop lt p hi' l' a b else (l', b)).1 l' := by
    intro l' c p hi' a b
    split
    · exact protectLoop_perm ..
    · exact .refl _
  simp only [doPivotGo]
  exact (aswap_perm ..).trans ((hif ..).trans ((dupsGo_perm ..).trans
    ((partitionLoop_perm ..).trans ((medianOfThree_perm ..).trans (nintherGo_perm ..)))))

theorem quickSortGo_perm [Inhabited α] (lt : α → α → Bool) :
    ∀ (fuel : Nat) (l : List α) (a b d : Nat), List.Perm (quickSortGo lt fuel l a b d) l := by
  intro fuel
  induction fuel with
  | zero => intro l a b d; exact .refl _
  | succ f ih =>
    intro l a b d
    simp only [quickSortGo]
    split
    · split
      · exact heapSortGo_perm ..
      · split
        · exact (ih ..).trans ((ih ..).trans (doPivotGo_perm ..))
        · exact (ih ..).trans ((ih ..).trans (doPivotGo_perm ..))
    · split
      · exact (insertionSortGo_perm ..).trans (shellFrom_perm ..)
      · exact .refl _

theorem sortGo_perm [Inhabited α] (lt : α → α → Bool) (l : List α) :
    List.Perm (sortGo lt l) l :=
  quickSortGo_perm ..

theorem sortRevGo_perm [Inhabited α] (lt : α → α → Bool) (l : List α) :
    List.Perm (sortRevGo lt l) l :=
  sortGo_perm ..

theorem sortIDMethod_perm (ts : Torrents) (r : Bool) : List.Perm (Torrents.SortID ts r) ts := by
  unfold Torrents.SortID
  split
  · exact sortRevGo_perm ..
  · exact sortGo_perm ..

theorem sortNameMethod_perm (ts : Torrents) (r : Bool) :
    List.Perm (Torrents.SortName ts r) ts := by
  unfold Torrents.SortName
  split
  · exact sortRevGo_perm ..
  · exact sortGo_perm ..

theorem sortAgeMethod_perm (ts : Torrents) (r : Bool) : List.Perm (Torrents.SortAge ts r) ts := by
  unfold Torrents.SortAge
  split
  · exact sortRevGo_perm ..
  · exact sortGo_perm ..

theorem sortSizeMethod_perm (ts : Torrents) (r : Bool) :
    List.Perm (Torrents.SortSize ts r) ts := by
  unfold Torrents.SortSize
  split
  · exact sortRevGo_perm ..
  · exact sortGo_perm ..

theorem sortProgressMethod_perm (ts : Torrents) (r : Bool) :
    List.Perm (Torrents.SortProgress ts r) ts := by
  unfold Torrents.SortProgress
  split
  · exact sortRevGo_perm ..
  · exact sortGo_perm ..

theorem sortDownloadedMethod_perm (ts : Torrents) (r : Bool) :
    List.Perm (Torrents.SortDownloaded ts r) ts := by
  unfold Torrents.SortDownloaded
  split
  · exact sortRevGo_perm ..
  · exact sortGo_perm ..

theorem sortUploadedMethod_perm (ts : Torrents) (r : Bool) :
    List.Perm (Torrents.SortUploaded ts r) ts := by
  unfold Torrents.SortUploaded
  split
  · exact sortRevGo_perm ..
  · exact sortGo_perm ..

theorem sortRatioMethod_perm (ts : Torrents) (r : Bool) :
    List.Perm (Torrents.SortRatio' ts r) ts := by
  unfold Torrents.SortRatio'
  split
  · exact sortRevGo_perm ..
  · exact sortGo_perm ..

theorem sortSwitch_perm (st : Sorting) (ts : Torrents) :
    List.Perm (sortSwitch st ts) ts := by
  unfold sortSwitch
  rcases eq_or_ne st SortID with h | h
  · rw [if_pos h]
  rw [if_neg h]
  rcases eq_or_ne st SortRevID with h | h
  · rw [if_pos h]; exact sortIDMethod_perm ..
  rw [if_neg h]
  rcases eq_or_ne st SortName with h | h
  · rw [if_pos h]; exact sortNameMethod_perm ..
  rw [if_neg h]
  rcases eq_or_ne st SortRevName with h | h
  · rw [if_pos h]; exact sortNameMethod_perm ..
  rw [if_neg h]
  rcases eq_or_ne st SortAge with h | h
  · rw [if_pos h]; exact sortAgeMethod_perm ..
  rw [if_neg h]
  rcases eq_or_ne st SortRevAge with h | h
  · rw [if_pos h]; exact sortAgeMethod_perm ..
  rw [if_neg h]
  rcases eq_or_ne st SortSize with h | h
  · rw [if_pos h]; exact sortSizeMethod_perm ..
  rw [if_neg h]
  rcases eq_or_ne st SortRevSize with h | h
  · rw [if_pos h]; exact sortSizeMethod_perm ..
  rw [if_neg h]
  rcases eq_or_ne st SortProgress with h | h
  · rw [if_pos h]; exact sortProgressMethod_perm ..
  rw [if_neg h]
  rcases eq_or_ne st SortRevProgress with h | h
  · rw [if_pos h]; exact sortProgressMethod_perm ..
  rw [if_neg h]
  rcases eq_or_ne st SortDownloaded with h | h
  · rw [if_pos h]; exact sortDownloadedMethod_perm ..
  rw [if_neg h]
  rcases eq_or_ne st SortRevDownloaded with h | h
  · rw [if_pos h]; exact sortDownloadedMethod_perm ..
  rw [if_neg h]
  rcases eq_or_ne st SortUploaded with h | h
  · rw [if_pos h]; exact sortUploadedMethod_perm ..
  rw [if_neg h]
  rcases eq_or_ne st SortRevUploaded with h | h
  · rw [if_pos h]; exact sortUploadedMethod_perm ..
  rw [if_neg h]
  rcases eq_or_ne st SortRatio' with h | h
  · rw [if_pos h]; exact sortRatioMethod_perm ..
  rw [if_neg h]
  rcases eq_or_ne st SortRevRatio' with h | h
  · rw [if_pos h]; exact sortRatioMethod_perm ..
  rw [if_neg h]

/-! Stability analysis.  Go sort.Sort is not stable; the insertion-sort
path taken for segments where the shellsort pass is vacuous (at most six
elements starting at 0) does preserve ties, because the inner loop only
swaps adjacent elements that compare strictly. -/

theorem insertionInner_length [Inhabited α] (lt : α → α → Bool) (a : Nat) :
    ∀ (j : Nat) (l : List α), (insertionInner lt a l j).length = l.length := by
  intro j
  induction j with
  | zero => intro l; rfl
  | succ j ih =>
    intro l
    simp only [insertionInner]
    split
    · rw [ih, aswap_length]
    · rfl

theorem aswap_cons_succ [Inhabited α] (x : α) (t : List α) (i j : Nat) :
    aswap (x :: t) (i+1) (j+1) = x :: aswap t i j := by
  unfold aswap
  by_cases h : i < t.length ∧ j < t.length
  · rw [if_pos (by simpa [Nat.succ_lt_succ_iff] using h), if_pos h]
    simp only [List.getD_cons_succ, List.set_cons_succ]
  · rw [if_neg (by simpa [Nat.succ_lt_succ_iff] using h), if_neg h]

theorem aswap_adj_filter [Inhabited α] (p : α → Bool) :
    ∀ (l : List α) (j : Nat), j + 1 < l.length →
      ¬(p (l.getD (j+1) default) = true ∧ p (l.getD j default) = true) →
      List.filter p (aswap l (j+1) j) = List.filter p l := by
  intro l
  induction l with
  | nil => intro j h; simp at h
  | cons x t ih =>
    intro j h hp
    cases j with
    | zero =>
      cases t with
      | nil => simp at h
      | cons y s =>
        have hb : (1 : Nat) < (x :: y :: s).length ∧ (0 : Nat) < (x :: y :: s).length := by
          simp
        unfold aswap
        rw [if_pos hb]
        simp only [List.getD_cons_zero, List.getD_cons_succ, List.set_cons_zero,
          List.set_cons_succ] at hp ⊢
        cases hpx : p x <;> cases hpy : p y <;>
          simp only [List.filter, hpx, hpy]
        exact absurd ⟨hpy, hpx⟩ hp
    | succ k =>
      have hk : k + 1 < t.length := by simpa using h
      rw [aswap_cons_succ]
      simp only [List.getD_cons_succ] at hp
      simp only [List.filter]
      rw [ih k hk hp]

theorem insertionInner_filter [Inhabited α] (lt : α → α → Bool) (p : α → Bool)
    (H : ∀ x y, lt x y = true → ¬(p x = true ∧ p y = true)) (a : Nat) :
    ∀ (j : Nat) (l : List α), j < l.length →
      List.filter p (insertionInner lt a l j) = List.filter p l := by
  intro j
  induction j with
  | zero => intro l _; rfl
  | succ j ih =>
    intro l h
    simp only [insertionInner]
    split
    · next hc =>
      have hlt := (Bool.and_eq_true _ _ |>.mp hc).2
      have hj : j < (aswap l (j+1) j).length := by
        rw [aswap_length]; omega
      rw [ih (aswap l (j+1) j) hj, aswap_adj_filter p l j h (H _ _ hlt)]
    · rfl

theorem insertionFrom_filter [Inhabited α] (lt : α → α → Bool) (p : α → Bool)
    (H : ∀ x y, lt x y = true → ¬(p x = true ∧ p y = true)) (a b : Nat) :
    ∀ (fuel i : Nat) (l : List α), b ≤ l.length →
      List.filter p (insertionFrom lt a b fuel i l) = List.filter p l := by
  intro fuel
  induction fuel with
  | zero => intro i l _; rfl
  | succ f ih =>
    intro i l hb
    simp only [insertionFrom]
    split
    · next hc =>
      have hb2 : b ≤ (insertionInner lt a l i).length := by
        rw [insertionInner_length]; exact hb
      rw [ih (i+1) _ hb2, insertionInner_filter lt p H a i l (by omega)]
    · rfl

theorem shellFrom_of_ge [Inhabited α] (lt : α → α → Bool) (b : Nat) (fuel i : Nat)
    (l : List α) (h : b ≤ i) : shellFrom lt b fuel i l = l := by
  cases fuel with
  | zero => rfl
  | succ f =>
    simp only [shellFrom]
    rw [if_neg (by omega)]

theorem sortGo_filter_small [Inhabited α] (lt : α → α → Bool) (p : α → Bool)
    (H : ∀ x y, lt x y = true → ¬(p x = true ∧ p y = true))
    (l : List α) (h : l.length ≤ 6) :
    List.filter p (sortGo lt l) = List.filter p l := by
  unfold sortGo
  simp only [quickSortGo]
  rw [if_neg (by omega)]
  split
  · unfold insertionSortGo
    rw [shellFrom_of_ge lt l.length l.length (0+6) l (by omega)]
    exact insertionFrom_filter lt p H 0 l.length l.length (0+1) l (le_refl _)
  · rfl

theorem keyNe_of_ltP {κ : Type _} [LinearOrder κ] (key : Torrent → κ) (k : κ)
    (p : Torrent → Bool) (hp : ∀ u, p u = true → key u = k)
    (lt : Torrent → Torrent → Bool) (hlt : ∀ x y, lt x y = true → key x < key y) :
    ∀ x y : Torrent, lt x y = true → ¬(p x = true ∧ p y = true) := by
  intro x y hxy hq
  have h1 := hlt x y hxy
  rw [hp x hq.1, hp y hq.2] at h1
  exact lt_irrefl k h1

/-- Helper: in the insertion-sort case of the Go sort (lists of at most
six elements), the sublist of elements whose sort key equals a fixed
value is unchanged by sorting, in both the plain and the reversed
comparator direction. -/
theorem sortKey_filter_small {κ : Type _} [LinearOrder κ] (key : Torrent → κ) (k : κ)
    (lt : Torrent → Torrent → Bool) (hlt : ∀ x y, lt x y = true → key x < key y)
    (p : Torrent → Bool) (hp : ∀ u, p u = true → key u = k)
    (ts : Torrents) (h : ts.length ≤ 6) (r : Bool) :
    List.filter p (if r then sortRevGo lt ts else sortGo lt ts) = List.filter p ts := by
  have H : ∀ x y, lt x y = true → ¬(p x = true ∧ p y = true) :=
    keyNe_of_ltP key k p hp lt hlt
  cases r with
  | false =>
    simp only [Bool.false_eq_true, if_false]
    exact sortGo_filter_small lt p H ts h
  | true =>
    simp only [if_true]
    exact sortGo_filter_small (reverseLess lt) p
      (fun x y hxy hq => H y x hxy ⟨hq.2, hq.1⟩) ts h

/-- C1: for every torrent list and every ordering mode handled by the
mode switch of GetTorrents (the sixteen Sorting constants as well as any
other value), sorting drops and duplicates nothing: the multiset of
torrent identifiers after the switch equals the multiset before. -/
theorem c1_sort_permutation (st : Sorting) (ts : Torrents) :
    Multiset.ofList (Torrents.GetIDs (sortSwitch st ts)) =
      Multiset.ofList (Torrents.GetIDs ts) :=
  Multiset.coe_eq_coe.mpr (List.Perm.map Torrent.ID (sortSwitch_perm st ts))

/-- C2 counterexample: in exSeven the torrents named B and G carry the
equal sort key ID = 1 and B precedes G; after the ascending SortID mode
the output order of names is G, B, C, D, E, F, A, so G has moved in
front of B: the relative order of two equal-key torrents is not
preserved (the shellsort gap-6 pass of Go sort.Sort jumps G over five
equal keys), refuting the stated stability. -/
theorem c2_counterexample :
    exSeven.map Torrent.ID = [9, 1, 1, 1, 1, 1, 1] ∧
    exSeven.map Torrent.Name = ["A", "B", "C", "D", "E", "F", "G"] ∧
    (Torrents.SortID exSeven false).map Torrent.Name =
      ["G", "B", "C", "D", "E", "F", "A"] := by
  refine ⟨rfl, rfl, ?_⟩
  decide

/-- C2 amended: Go sort.Sort is not stable, so two equal-key torrents
may be reordered (see the seven-element counterexample); the stability
that does hold is the pure insertion-sort case: for input lists of at
most six torrents, under every ordering mode and in both the ascending
and descending direction, the sublist of torrents holding any fixed
sort-key value is unchanged by the sort, so equal-key torrents keep
their relative order. -/
theorem c2_small_lists_stable (ts : Torrents) (h : ts.length ≤ 6) (t : Torrent) (r : Bool) :
    ((Torrents.SortID ts r).filter (fun u => decide (u.ID = t.ID)) =
      ts.filter (fun u => decide (u.ID = t.ID))) ∧
    ((Torrents.SortName ts r).filter (fun u => decide (u.Name = t.Name)) =
      ts.filter (fun u => decide (u.Name = t.Name))) ∧
    ((Torrents.SortAge ts r).filter (fun u => decide (u.AddedDate = t.AddedDate)) =
      ts.filter (fun u => decide (u.AddedDate = t.AddedDate))) ∧
    ((Torrents.SortSize ts r).filter (fun u => decide (u.SizeWhenDone = t.SizeWhenDone)) =
      ts.filter (fun u => decide (u.SizeWhenDone = t.SizeWhenDone))) ∧
    ((Torrents.SortProgress ts r).filter (fun u => decide (u.PercentDone = t.PercentDone)) =
      ts.filter (fun u => decide (u.PercentDone = t.PercentDone))) ∧
    ((Torrents.SortDownloaded ts r).filter (fun u => decide (u.DownloadedEver = t.DownloadedEver)) =
      ts.filter (fun u => decide (u.DownloadedEver = t.DownloadedEver))) ∧
    ((Torrents.SortUploaded ts r).filter (fun u => decide (u.UploadedEver = t.UploadedEver)) =
      ts.filter (fun u => decide (u.UploadedEver = t.UploadedEver))) ∧
    ((Torrents.SortRatio' ts r).filter (fun u => decide (u.UploadRatio' = t.UploadRatio')) =
      ts.filter (fun u => decide (u.UploadRatio' = t.UploadRatio'))) :=
  ⟨sortKey_filter_small Torrent.ID t.ID lessByID (fun _ _ hxy => of_decide_eq_true hxy)
     _ (fun _ hu => of_decide_eq_true hu) ts h r,
   sortKey_filter_small Torrent.Name t.Name lessByName (fun _ _ hxy => of_decide_eq_true hxy)
     _ (fun _ hu => of_decide_eq_true hu) ts h r,
   sortKey_filter_small Torrent.AddedDate t.AddedDate lessByAge
     (fun _ _ hxy => of_decide_eq_true hxy) _ (fun _ hu => of_decide_eq_true hu) ts h r,
   sortKey_filter_small Torrent.SizeWhenDone t.SizeWhenDone lessBySize
     (fun _ _ hxy => of_decide_eq_true hxy) _ (fun _ hu => of_decide_eq_true hu) ts h r,
   sortKey_filter_small Torrent.PercentDone t.PercentDone lessByProgress
     (fun _ _ hxy => of_decide_eq_true hxy) _ (fun _ hu => of_decide_eq_true hu) ts h r,
   sortKey_filter_small Torrent.DownloadedEver t.DownloadedEver lessByDownloaded
     (fun _ _ hxy => of_decide_eq_true hxy) _ (fun _ hu => of_decide_eq_true hu) ts h r,
   sortKey_filter_small Torrent.UploadedEver t.UploadedEver lessByUploaded
     (fun _ _ hxy => of_decide_eq_true hxy) _ (fun _ hu => of_decide_eq_true hu) ts h r,
   sortKey_filter_small Torrent.UploadRatio' t.UploadRatio' lessByRatio'
     (fun _ _ hxy => of_decide_eq_true hxy) _ (fun _ hu => of_decide_eq_true hu) ts h r⟩

/-- Witness for the amended C2 at a concrete input: a two-element tie
under ascending SortID keeps its order. -/
theorem c2_small_lists_stable_witness :
    (exPair.length ≤ 6) ∧
    ((Torrents.SortID exPair false).filter (fun u => decide (u.ID = (mkT 1 "x").ID)) =
      exPair.filter (fun u => decide (u.ID = (mkT 1 "x").ID))) :=
  ⟨by decide, (c2_small_lists_stable exPair (by decide) (mkT 1 "x") false).1⟩

/-- C3: every descending mode is computed by sorting with the reversed
comparator (sort.Reverse flips the Less relation), not by reversing the
ascending output: the first part records the reversed-comparator
equality for all eight base modes on every list, and the second part
shows on a two-element tie that the descending result differs from the
element-wise reverse of the ascending result. -/
theorem c3_descending_reversed_comparator :
    (∀ ts : Torrents,
      Torrents.SortID ts true = sortGo (reverseLess lessByID) ts ∧
      Torrents.SortName ts true = sortGo (reverseLess lessByName) ts ∧
      Torrents.SortAge ts true = sortGo (reverseLess lessByAge) ts ∧
      Torrents.SortSize ts true = sortGo (reverseLess lessBySize) ts ∧
      Torrents.SortProgress ts true = sortGo (reverseLess lessByProgress) ts ∧
      Torrents.SortDownloaded ts true = sortGo (reverseLess lessByDownloaded) ts ∧
      Torrents.SortUploaded ts true = sortGo (reverseLess lessByUploaded) ts ∧
      Torrents.SortRatio' ts true = sortGo (reverseLess lessByRatio') ts) ∧
    Torrents.SortID exPair true ≠ (Torrents.SortID exPair false).reverse := by
  constructor
  · intro ts
    exact ⟨rfl, rfl, rfl, rfl, rfl, rfl, rfl, rfl⟩
  · decide

/-- C4 counterexample: the wire form of an add-by-URL command does not
contain only the torrent-add argument fields: the untagged argument
fields torrent-added, version and activeTorrentCount (none relevant to a
torrent-add request) are present in the arguments object, so the claim
that every other argument field is omitted entirely fails at this
command. -/
theorem c4_counterexample :
    "torrent-added" ∈ argumentKeys (NewAddCmdByURL "magnet:?xt=urn:btih:deadbeef") ∧
    "version" ∈ argumentKeys (NewAddCmdByURL "magnet:?xt=urn:btih:deadbeef") ∧
    "activeTorrentCount" ∈ argumentKeys (NewAddCmdByURL "magnet:?xt=urn:btih:deadbeef") := by
  refine ⟨?_, ?_, ?_⟩ <;> decide

/-- C4 amended: only the omitempty-tagged argument fields are dropped at
their zero values.  An add command built from a magnet or URL string
populates only the filename field among those, so its wire form carries
exactly the key filename followed by the nine untagged fields
(torrent-added, the session counters and version, emitted as zero
values); in particular metainfo, ids, fields, torrents, download-dir and
delete-local-data are absent from the wire form. -/
theorem c4_add_by_url_keys (url : String) (h : url ≠ "") :
    argumentKeys (NewAddCmdByURL url) =
      ["filename", "torrent-added", "activeTorrentCount", "cumulative-stats", "current-stats",
        "downloadSpeed", "pausedTorrentCount", "torrentCount", "uploadSpeed", "version"] ∧
    "metainfo" ∉ argumentKeys (NewAddCmdByURL url) ∧
    "ids" ∉ argumentKeys (NewAddCmdByURL url) := by
  have hkeys : argumentKeys (NewAddCmdByURL url) =
      ["filename", "torrent-added", "activeTorrentCount", "cumulative-stats", "current-stats",
        "downloadSpeed", "pausedTorrentCount", "torrentCount", "uploadSpeed", "version"] := by
    unfold argumentKeys marshalArguments NewAddCmdByURL NewAddCmd emptyCommand emptyArguments
    rw [if_neg h]
    rfl
  refine ⟨hkeys, ?_, ?_⟩ <;> rw [hkeys] <;> decide

/-- Witness for the amended C4 at a concrete magnet URL. -/
theorem c4_add_by_url_keys_witness :
    ("magnet:?xt=urn:btih:deadbeef" ≠ "") ∧
    argumentKeys (NewAddCmdByURL "magnet:?xt=urn:btih:deadbeef") =
      ["filename", "torrent-added", "activeTorrentCount", "cumulative-stats", "current-stats",
        "downloadSpeed", "pausedTorrentCount", "torrentCount", "uploadSpeed", "version"] :=
  ⟨by decide, (c4_add_by_url_keys "magnet:?xt=urn:btih:deadbeef" (by decide)).1⟩

/-- C5: whenever the reply to the single-torrent query decodes with an
empty torrent list, GetTorrent returns the zero Torrent together with
the distinct domain error errors.New("No torrent with that id") — never
the zero Torrent as a valid (error-free) result — and that error value
differs from every transport error and every decode error. -/
theorem c5_not_found (env : Env) (id : Int) (out : Command)
    (hpost : env (marshalCommand (getTorrentCmd id)) = .reply out)
    (hempty : out.Arguments.Torrents = []) :
    GetTorrent env id =
      ((emptyTorrent, some (GoError.newErr "No torrent with that id")),
        [marshalCommand (getTorrentCmd id)]) ∧
    (∀ s, GoError.newErr "No torrent with that id" ≠ GoError.transportErr s) ∧
    (∀ s, GoError.newErr "No torrent with that id" ≠ GoError.decodeErr s) := by
  refine ⟨?_, ?_, ?_⟩
  · simp only [GetTorrent, ExecuteCommand]
    rw [hpost]
    simp [hempty]
  · intro s h
    exact GoError.noConfusion h
  · intro s h
    exact GoError.noConfusion h

/-- Witness for C5: an environment always replying with the empty
Command makes GetTorrent report the not-found error. -/
theorem c5_not_found_witness :
    envEmptyReply (marshalCommand (getTorrentCmd 7)) = .reply emptyCommand ∧
    GetTorrent envEmptyReply 7 =
      ((emptyTorrent, some (GoError.newErr "No torrent with that id")),
        [marshalCommand (getTorrentCmd 7)]) :=
  ⟨rfl, (c5_not_found envEmptyReply 7 emptyCommand rfl rfl).1⟩

/-- C6 counterexample: with a transport that fails every Post, the
sendCommand underlying Version fails with a transport error, yet
Version — a public operation whose request pipeline is fallible —
returns only the zero version string: the error is discarded, refuting
the claim that every fallible operation returns its failure to the
caller. -/
theorem c6_counterexample :
    (sendCommand envFail versionCmd).1.2 = some (GoError.transportErr "connection refused") ∧
    Version envFail = ("", [marshalCommand versionCmd]) := by
  exact ⟨rfl, rfl⟩

/-- C6 amended: every public fallible operation except Version returns
the failure of its (first) underlying Post or decode to the caller;
Version alone discards the error of its sendCommand and returns the
zero-value version string. -/
theorem c6_no_swallow_except_version :
    (∀ (env : Env) (cmd : Command) (e : GoError),
      env (marshalCommand cmd) = .fail e → (ExecuteCommand env cmd).1.2 = some e) ∧
    (∀ (env : Env) (cmd : Command) (m : String),
      env (marshalCommand cmd) = .malformed m →
        (ExecuteCommand env cmd).1.2 = some (.decodeErr m)) ∧
    (∀ (env : Env) (cmd : Command) (e : GoError),
      env (marshalCommand cmd) = .fail e → (sendCommand env cmd).1.2 = some e) ∧
    (∀ (env : Env) (st : Sorting) (e : GoError),
      env (marshalCommand NewGetTorrentsCmd) = .fail e → (GetTorrents env st).1.2 = some e) ∧
    (∀ (env : Env) (id : Int) (e : GoError),
      env (marshalCommand (getTorrentCmd id)) = .fail e → (GetTorrent env id).1.2 = some e) ∧
    (∀ (env : Env) (id : Int) (wd : Bool) (e : GoError),
      env (marshalCommand (getTorrentCmd id)) = .fail e →
        (DeleteTorrent env id wd).1.2 = some e) ∧
    (∀ (env : Env) (e : GoError),
      env (marshalCommand statsCmd) = .fail e → (GetStats env).1.2 = some e) ∧
    (∀ (env : Env) (method : String) (id : Int) (e : GoError),
      env (marshalCommand (simpleCmd method id)) = .fail e →
        (sendSimpleCommand env method id).1.2 = some e) ∧
    (∀ (env : Env) (st : Sorting) (e : GoError),
      env (marshalCommand NewGetTorrentsCmd) = .fail e → (StartAll env st).1 = some e) ∧
    (∀ (env : Env) (st : Sorting) (e : GoError),
      env (marshalCommand NewGetTorrentsCmd) = .fail e → (StopAll env st).1 = some e) ∧
    (∀ (env : Env) (st : Sorting) (e : GoError),
      env (marshalCommand NewGetTorrentsCmd) = .fail e → (VerifyAll env st).1 = some e) ∧
    (∀ (env : Env) (addCmd : Command) (e : GoError),
      env (marshalCommand addCmd) = .fail e → (ExecuteAddCommand env addCmd).1.2 = some e) ∧
    (∀ (env : Env) (e : GoError),
      env (marshalCommand versionCmd) = .fail e →
        Version env = ("", [marshalCommand versionCmd])) := by
  refine ⟨?_, ?_, ?_, ?_, ?_, ?_, ?_, ?_, ?_, ?_, ?_, ?_, ?_⟩
  · intro env cmd e h
    simp [ExecuteCommand, h]
  · intro env cmd m h
    simp [ExecuteCommand, h]
  · intro env cmd e h
    simp [sendCommand, h]
  · intro env st e h
    simp [GetTorrents, ExecuteCommand, h]
  · intro env id e h
    simp [GetTorrent, ExecuteCommand, h]
  · intro env id wd e h
    simp [DeleteTorrent, GetTorrent, ExecuteCommand, h]
  · intro env e h
    simp [GetStats, ExecuteCommand, h]
  · intro env method id e h
    simp [sendSimpleCommand, sendCommand, h]
  · intro env st e h
    simp [StartAll, GetTorrents, ExecuteCommand, h]
  · intro env st e h
    simp [StopAll, GetTorrents, ExecuteCommand, h]
  · intro env st e h
    simp [VerifyAll, GetTorrents, ExecuteCommand, h]
  · intro env addCmd e h
    simp [ExecuteAddCommand, ExecuteCommand, h]
  · intro env e h
    simp [Version, sendCommand, h]
    rfl

/-- Witness for the amended C6: with the always-failing transport, the
executor reports the transport error while Version returns the bare
zero string. -/
theorem c6_no_swallow_except_version_witness :
    (ExecuteCommand envFail NewGetTorrentsCmd).1.2 =
      some (GoError.transportErr "connection refused") ∧
    Version envFail = ("", [marshalCommand versionCmd]) :=
  ⟨c6_no_swallow_except_version.1 envFail NewGetTorrentsCmd
      (GoError.transportErr "connection refused") rfl,
    c6_no_swallow_except_version.2.2.2.2.2.2.2.2.2.2.2.2 envFail
      (GoError.transportErr "connection refused") rfl⟩

/-- The posted-body list of sendCommand is always the single marshalled
command. -/
theorem sendCommand_trace (env : Env) (cmd : Command) :
    (sendCommand env cmd).2 = [marshalCommand cmd] := by
  simp only [sendCommand]
  cases env (marshalCommand cmd) <;> rfl

/-- C7: for each bulk operation, a fresh list query is posted first and
then exactly one request is posted whose id list is exactly GetIDs of
the list that query returned (the decoded reply list arranged by the
active ordering mode), in that order: the full posted-body trace is the
torrent-get body followed by the single method body carrying those
ids. -/
theorem c7_bulk_ids (env : Env) (st : Sorting) (out : Command)
    (hget : env (marshalCommand NewGetTorrentsCmd) = .reply out) :
    (GetTorrents env st).1.1 = sortSwitch st out.Arguments.Torrents ∧
    (StartAll env st).2 =
      [marshalCommand NewGetTorrentsCmd,
        marshalCommand (bulkCmd "torrent-start"
          (Torrents.GetIDs (sortSwitch st out.Arguments.Torrents)))] ∧
    (StopAll env st).2 =
      [marshalCommand NewGetTorrentsCmd,
        marshalCommand (bulkCmd "torrent-stop"
          (Torrents.GetIDs (sortSwitch st out.Arguments.Torrents)))] ∧
    (VerifyAll env st).2 =
      [marshalCommand NewGetTorrentsCmd,
        marshalCommand (bulkCmd "torrent-verify"
          (Torrents.GetIDs (sortSwitch st out.Arguments.Torrents)))] := by
  refine ⟨?_, ?_, ?_, ?_⟩
  · simp only [GetTorrents, ExecuteCommand]
    rw [hget]
  · simp only [StartAll, GetTorrents, ExecuteCommand]
    rw [hget]
    cases hsub : (sendCommand env (bulkCmd "torrent-start"
        (Torrents.GetIDs (sortSwitch st out.Arguments.Torrents)))).1.2 <;>
      simp [hsub, sendCommand_trace]
  · simp only [StopAll, GetTorrents, ExecuteCommand]
    rw [hget]
    cases hsub : (sendCommand env (bulkCmd "torrent-stop"
        (Torrents.GetIDs (sortSwitch st out.Arguments.Torrents)))).1.2 <;>
      simp [hsub, sendCommand_trace]
  · simp only [VerifyAll, GetTorrents, ExecuteCommand]
    rw [hget]
    cases hsub : (sendCommand env (bulkCmd "torrent-verify"
        (Torrents.GetIDs (sortSwitch st out.Arguments.Torrents)))).1.2 <;>
      simp [hsub, sendCommand_trace]

/-- Witness for C7: with a reply carrying torrents of identifiers 1, 2,
3 under the default mode, bulk start posts the list query and then one
torrent-start request with ids 1, 2, 3 in order. -/
theorem c7_bulk_ids_witness :
    (StartAll envThree SortID).2 =
      [marshalCommand NewGetTorrentsCmd,
        marshalCommand (bulkCmd "torrent-start" [1, 2, 3])] :=
  (c7_bulk_ids envThree SortID replyThree rfl).2.1

/-- C8: the ratio renderer maps every negative ratio (the sentinel) to
the infinity symbol and every non-negative ratio to its three-decimal
numeral; the eta renderer maps every negative eta to the infinity
symbol and every non-negative eta to its plain decimal numeral; both
functions are total by construction, and the concrete conjuncts record
the sentinel and formatted outputs at -1, 2 and 42. -/
theorem c8_sentinel_rendering :
    (∀ t : Torrent, t.UploadRatio' < 0 → Torrent.Ratio' t = "∞") ∧
    (∀ t : Torrent, 0 ≤ t.UploadRatio' → Torrent.Ratio' t = fmt3 t.UploadRatio') ∧
    (∀ t : Torrent, t.Eta < 0 → Torrent.ETA t = "∞") ∧
    (∀ t : Torrent, 0 ≤ t.Eta → Torrent.ETA t = fmtInt t.Eta) ∧
    Torrent.Ratio' (mkRatioT (-1)) = "∞" ∧
    Torrent.Ratio' (mkRatioT 2) = "2.000" ∧
    Torrent.ETA (mkEtaT (-1)) = "∞" ∧
    Torrent.ETA (mkEtaT 42) = "42" := by
  refine ⟨?_, ?_, ?_, ?_, ?_, ?_, ?_, ?_⟩
  · intro t h
    unfold Torrent.Ratio'
    rw [if_pos h]
  · intro t h
    unfold Torrent.Ratio'
    rw [if_neg (not_lt.mpr h)]
  · intro t h
    unfold Torrent.ETA
    rw [if_pos h]
  · intro t h
    unfold Torrent.ETA
    rw [if_neg (not_lt.mpr h)]
  · decide
  · decide
  · decide
  · decide

/-- Witness for C8: the sentinel branches applied at ratio -1 and eta
-1. -/
theorem c8_sentinel_rendering_witness :
    ((mkRatioT (-1)).UploadRatio' < 0 ∧ Torrent.Ratio' (mkRatioT (-1)) = "∞") ∧
    ((mkEtaT (-1)).Eta < 0 ∧ Torrent.ETA (mkEtaT (-1)) = "∞") ∧
    (0 ≤ (mkEtaT 42).Eta ∧ Torrent.ETA (mkEtaT 42) = fmtInt (mkEtaT 42).Eta) :=
  ⟨⟨by decide, c8_sentinel_rendering.1 (mkRatioT (-1)) (by decide)⟩,
   ⟨by decide, c8_sentinel_rendering.2.2.1 (mkEtaT (-1)) (by decide)⟩,
   ⟨by decide, c8_sentinel_rendering.2.2.2.1 (mkEtaT 42) (by decide)⟩⟩

/-- C9: DeleteTorrent queries the torrent first; if that query fails
(with a transport, decode or not-found error) the same error is
returned and no torrent-remove request is ever posted (every posted
body has a method other than torrent-remove); when the query succeeds
and the remove reply arrives, the posted trace is exactly the get
body followed by the remove body, and the returned name is the one
captured by the pre-delete query. -/
theorem c9_delete_pre_query :
    (∀ (env : Env) (id : Int) (wd : Bool) (e : GoError),
      (GetTorrent env id).1.2 = some e →
        DeleteTorrent env id wd = (("", some e), (GetTorrent env id).2) ∧
        (∀ j ∈ (DeleteTorrent env id wd).2, methodOf j ≠ some "torrent-remove")) ∧
    (∀ (env : Env) (id : Int) (wd : Bool) (t : Torrent) (rest : Torrents)
        (out outDel : Command),
      env (marshalCommand (getTorrentCmd id)) = .reply out →
      out.Arguments.Torrents = t :: rest →
      env (marshalCommand (newDelCmd id wd)) = .reply outDel →
        DeleteTorrent env id wd =
          ((t.Name, none),
            [marshalCommand (getTorrentCmd id), marshalCommand (newDelCmd id wd)])) := by
  constructor
  · intro env id wd e hfail
    have htrace : (GetTorrent env id).2 = [marshalCommand (getTorrentCmd id)] := by
      simp only [GetTorrent, ExecuteCommand]
      cases env (marshalCommand (getTorrentCmd id)) <;> simp
      split <;> rfl
    have hdel : DeleteTorrent env id wd = (("", some e), (GetTorrent env id).2) := by
      simp only [DeleteTorrent, hfail]
    refine ⟨hdel, ?_⟩
    intro j hj
    rw [hdel, htrace] at hj
    simp only [List.mem_singleton] at hj
    subst hj
    intro hcontra
    simp [marshalCommand, getTorrentCmd, NewGetTorrentsCmd, emptyCommand, methodOf] at hcontra
  · intro env id wd t rest out outDel hget htor hdel
    simp only [DeleteTorrent, GetTorrent, ExecuteCommand]
    rw [hget, hdel]
    simp [htor]

/-- Witness for C9: the failing-transport case posts no remove request,
and the succeeding case returns the pre-delete name with the two-body
trace. -/
theorem c9_delete_pre_query_witness :
    ((GetTorrent envFail 3).1.2 = some (GoError.transportErr "connection refused") ∧
      DeleteTorrent envFail 3 true =
        (("", some (GoError.transportErr "connection refused")), (GetTorrent envFail 3).2)) ∧
    DeleteTorrent envThree 1 true =
      (("a", none),
        [marshalCommand (getTorrentCmd 1), marshalCommand (newDelCmd 1 true)]) :=
  ⟨⟨rfl, ((c9_delete_pre_query.1 envFail 3 true (GoError.transportErr "connection refused")
      rfl)).1⟩,
    c9_delete_pre_query.2 envThree 1 true (mkT 1 "a") [mkT 2 "b", mkT 3 "c"]
      replyThree replyThree rfl rfl rfl⟩

/-- sortSwitch at a mode outside the sixteen defined constants matches
no case and returns the list as received. -/
theorem sortSwitch_default (st : Int) (h : st < 0 ∨ 15 < st) (ts : Torrents) :
    sortSwitch st ts = ts := by
  have e0 : ¬(st = SortID) := by unfold SortID; rcases h with h | h <;> omega
  have e1 : ¬(st = SortRevID) := by unfold SortRevID; rcases h with h | h <;> omega
  have e2 : ¬(st = SortName) := by unfold SortName; rcases h with h | h <;> omega
  have e3 : ¬(st = SortRevName) := by unfold SortRevName; rcases h with h | h <;> omega
  have e4 : ¬(st = SortAge) := by unfold SortAge; rcases h with h | h <;> omega
  have e5 : ¬(st = SortRevAge) := by unfold SortRevAge; rcases h with h | h <;> omega
  have e6 : ¬(st = SortSize) := by unfold SortSize; rcases h with h | h <;> omega
  have e7 : ¬(st = SortRevSize) := by unfold SortRevSize; rcases h with h | h <;> omega
  have e8 : ¬(st = SortProgress) := by unfold SortProgress; rcases h with h | h <;> omega
  have e9 : ¬(st = SortRevProgress) := by unfold SortRevProgress; rcases h with h | h <;> omega
  have e10 : ¬(st = SortDownloaded) := by unfold SortDownloaded; rcases h with h | h <;> omega
  have e11 : ¬(st = SortRevDownloaded) := by unfold SortRevDownloaded; rcases h with h | h <;> omega
  have e12 : ¬(st = SortUploaded) := by unfold SortUploaded; rcases h with h | h <;> omega
  have e13 : ¬(st = SortRevUploaded) := by unfold SortRevUploaded; rcases h with h | h <;> omega
  have e14 : ¬(st = SortRatio') := by unfold SortRatio'; rcases h with h | h <;> omega
  have e15 : ¬(st = SortRevRatio') := by unfold SortRevRatio'; rcases h with h | h <;> omega
  unfold sortSwitch
  rw [if_neg e0, if_neg e1, if_neg e2, if_neg e3, if_neg e4, if_neg e5, if_neg e6,
    if_neg e7, if_neg e8, if_neg e9, if_neg e10, if_neg e11, if_neg e12, if_neg e13,
    if_neg e14, if_neg e15]

/-- C10: after SetSort with any Sorting value outside the sixteen
defined constants, GetTorrents behaves exactly as in the default SortID
mode: it returns the decoded reply list unchanged, in received order,
with no error. -/
theorem c10_unknown_mode (st : Sorting) (hout : st < 0 ∨ 15 < st) (env : Env) :
    GetTorrents env (SetSort st) = GetTorrents env SortID ∧
    (∀ out : Command, env (marshalCommand NewGetTorrentsCmd) = .reply out →
      (GetTorrents env (SetSort st)).1 = (out.Arguments.Torrents, none)) := by
  constructor
  · simp only [GetTorrents, SetSort, ExecuteCommand]
    cases env (marshalCommand NewGetTorrentsCmd) with
    | fail e => rfl
    | malformed m => rfl
    | reply out =>
      simp only [sortSwitch_default st hout]
      rw [sortSwitch]
      rw [if_pos rfl]
  · intro out hpost
    simp only [GetTorrents, SetSort, ExecuteCommand]
    rw [hpost]
    simp [sortSwitch_default st hout]

/-- Witness for C10 at the out-of-range mode 99. -/
theorem c10_unknown_mode_witness :
    ((99 : Sorting) < 0 ∨ 15 < (99 : Sorting)) ∧
    GetTorrents envThree (SetSort 99) = GetTorrents envThree SortID :=
  ⟨by decide, (c10_unknown_mode 99 (by decide) envThree).1⟩
